import Mathlib

/-!
Verification of the AcmeLiquers order system core against its source.

The embedding models the DynamoDB tables (orders, orders-by-id, inventory)
as association lists with a first-match lookup, money amounts as exact
rationals, and each TypeScript handler as a pure state transformer that
returns its response together with the resulting store state.  Sources of
nondeterminism in the code (generated ULIDs, clock reads, the payment
stub's random draw, injected storage faults) are passed in as explicit
parameters.
-/

namespace AcmeLiquors

/-- Association-list table with first-match lookup, modelling one DynamoDB
table.  `put` replaces the whole item at the key (DynamoDB `PutItem`);
`modify` rewrites the item in place when present (an `UpdateItem` whose
key exists). -/
abbrev Table (κ ν : Type) : Type := List (κ × ν)

def Table.get {κ ν : Type} [DecidableEq κ] : Table κ ν → κ → Option ν
  | [], _ => none
  | (k', v) :: rest, k => if k' = k then some v else Table.get rest k

def Table.put {κ ν : Type} [DecidableEq κ] : Table κ ν → κ → ν → Table κ ν
  | [], k, v => [(k, v)]
  | (k', v') :: rest, k, v =>
      if k' = k then (k, v) :: rest else (k', v') :: Table.put rest k v

def Table.modify {κ ν : Type} [DecidableEq κ] : Table κ ν → κ → (ν → ν) → Table κ ν
  | [], _, _ => []
  | (k', v') :: rest, k, f =>
      if k' = k then (k', f v') :: rest else (k', v') :: Table.modify rest k f

theorem Table.get_put_self {κ ν : Type} [DecidableEq κ] (t : Table κ ν) (k : κ) (v : ν) :
    Table.get (Table.put t k v) k = some v := by
  induction t with
  | nil => simp [Table.put, Table.get]
  | cons hd tl ih =>
      by_cases h : hd.1 = k
      · simp [Table.put, Table.get, h]
      · simpa [Table.put, Table.get, h] using ih

theorem Table.get_put_ne {κ ν : Type} [DecidableEq κ] (t : Table κ ν) (k k' : κ) (v : ν)
    (h : k ≠ k') : Table.get (Table.put t k v) k' = Table.get t k' := by
  induction t with
  | nil => simp [Table.put, Table.get, h]
  | cons hd tl ih =>
      by_cases hk : hd.1 = k
      · simp [Table.put, Table.get, hk, h]
      · simp [Table.put, Table.get, hk, ih]

theorem Table.get_modify_ne {κ ν : Type} [DecidableEq κ] (t : Table κ ν) (k k' : κ)
    (f : ν → ν) (h : k ≠ k') : Table.get (Table.modify t k f) k' = Table.get t k' := by
  induction t with
  | nil => simp [Table.modify]
  | cons hd tl ih =>
      by_cases hk : hd.1 = k
      · simp [Table.modify, Table.get, hk, h]
      · simp [Table.modify, Table.get, hk, ih]

theorem Table.get_modify_self {κ ν : Type} [DecidableEq κ] (t : Table κ ν) (k : κ)
    (f : ν → ν) (v : ν) (h : Table.get t k = some v) :
    Table.get (Table.modify t k f) k = some (f v) := by
  induction t with
  | nil => simp [Table.get] at h
  | cons hd tl ih =>
      by_cases hk : hd.1 = k
      · simp [Table.get, hk] at h
        simp [Table.modify, Table.get, hk, h]
      · simp [Table.get, hk] at h
        simpa [Table.modify, Table.get, hk] using ih h

theorem Table.put_fresh_eq_append {κ ν : Type} [DecidableEq κ] (t : Table κ ν) (k : κ) (v : ν)
    (h : Table.get t k = none) : Table.put t k v = t ++ [(k, v)] := by
  induction t with
  | nil => simp [Table.put]
  | cons hd tl ih =>
      by_cases hk : hd.1 = k
      · simp [Table.get, hk] at h
      · simp [Table.get, hk] at h
        simp [Table.put, hk, ih h]

theorem Table.filter_eq_nil_of_get_none {κ ν : Type} [DecidableEq κ] (t : Table κ ν) (k : κ)
    (h : Table.get t k = none) : t.filter (fun e => e.1 = k) = [] := by
  induction t with
  | nil => simp
  | cons hd tl ih =>
      by_cases hk : hd.1 = k
      · simp [Table.get, hk] at h
      · simp [Table.get, hk] at h
        simp [List.filter, hk, ih h]

/-! ## Domain data types (src/services/shared/src/types/order.ts) -/

inductive OrderStatus
  | PENDING
  | CONFIRMED
  | PROCESSING
  | SHIPPED
  | DELIVERED
  | CANCELLED
  | FAILED
deriving DecidableEq, Repr

inductive PaymentState
  | PENDING
  | AUTHORIZED
  | CAPTURED
  | FAILED
  | REFUNDED
deriving DecidableEq, Repr

structure Address where
  street : String
  city : String
  state : String
  zip : String
deriving DecidableEq, Repr

/-- Line item as stored on an order (OrderItemSchema). -/
structure OrderItem where
  sku : String
  name : String
  quantity : Nat
  unit_price : ℚ
  total_price : ℚ
deriving DecidableEq, Repr

/-- Line item of a create request (CreateOrderItemSchema); `total_price`
is computed by the handler. -/
structure CreateOrderItem where
  sku : String
  name : String
  quantity : Nat
  unit_price : ℚ
deriving DecidableEq, Repr

/-- Primary order record, keyed by (customer_id, order_ts_id). -/
structure Order where
  customer_id : String
  order_ts_id : String
  order_id : String
  order_ts : String
  store_id : String
  county_id : String
  status : OrderStatus
  payment_state : PaymentState
  items : List OrderItem
  subtotal : ℚ
  tax : ℚ
  total : ℚ
  shipping_address : Address
  idempotency_key : String
  created_at : String
  updated_at : String
deriving DecidableEq, Repr

/-- By-id projection record, keyed by order_id (the OrderById interface:
everything from Order except order_ts_id and idempotency_key). -/
structure OrderById where
  order_id : String
  customer_id : String
  order_ts : String
  status : OrderStatus
  payment_state : PaymentState
  store_id : String
  county_id : String
  items : List OrderItem
  subtotal : ℚ
  tax : ℚ
  total : ℚ
  shipping_address : Address
  created_at : String
  updated_at : String
deriving DecidableEq, Repr

/-- Inventory row, keyed by store_sku = store_id ++ "#" ++ sku.  The
quantity attributes may be absent on a stored item; the handlers default
them to 0 (`?? 0` and `if_not_exists(..., 0)`), which `Option.getD 0`
mirrors. -/
structure InventoryRecord where
  quantity_available : Option Int
  quantity_reserved : Option Int
  updated_at : String
deriving DecidableEq, Repr

/-- The whole store state: the three DynamoDB tables the claims touch. -/
structure DB where
  orders : Table (String × String) Order
  ordersById : Table String OrderById
  inventory : Table String InventoryRecord
deriving DecidableEq

/-- Validated create request body (CreateOrderRequestSchema). -/
structure CreateOrderRequest where
  customer_id : String
  store_id : String
  county_id : String
  items : List CreateOrderItem
  shipping_address : Address
deriving DecidableEq, Repr

/-! ## Order repository operations (src/services/shared/src/dynamodb/operations.ts) -/

/-- Projection built inside createOrder before the second put
(operations.ts lines 33-48). -/
def toOrderById (o : Order) : OrderById :=
  { order_id := o.order_id
    customer_id := o.customer_id
    order_ts := o.order_ts
    status := o.status
    payment_state := o.payment_state
    store_id := o.store_id
    county_id := o.county_id
    items := o.items
    subtotal := o.subtotal
    tax := o.tax
    total := o.total
    shipping_address := o.shipping_address
    created_at := o.created_at
    updated_at := o.updated_at }

/-- createOrder (operations.ts lines 18-74).  The guarded PutItem on the
orders table succeeds exactly when no item exists at the key
(customer_id, order_ts_id); on guard failure the code re-reads that key
and returns the existing record with created = false.  `byIdPutFails`
injects a storage fault into the second, unguarded put of the by-id
projection: the catch block re-throws it because it is not a
conditional-check failure, so the operation ends in an error while the
primary record is already stored.  The result pairs the operation's
outcome with the resulting store state. -/
def createOrder (st : DB) (order : Order) (byIdPutFails : Bool) :
    Except String (Bool × Order) × DB :=
  match Table.get st.orders (order.customer_id, order.order_ts_id) with
  | none =>
      let st1 : DB :=
        { st with orders := Table.put st.orders (order.customer_id, order.order_ts_id) order }
      if byIdPutFails then
        (Except.error "OrderById put failed", st1)
      else
        (Except.ok (true, order),
          { st1 with ordersById := Table.put st1.ordersById order.order_id (toOrderById order) })
  | some _ =>
      match Table.get st.orders (order.customer_id, order.order_ts_id) with
      | some existing => (Except.ok (false, existing), st)
      | none => (Except.error "ConditionalCheckFailedException", st)

/-- updateOrderStatus (operations.ts lines 238-300).  The update of the
primary record is guarded by "current status = expectedCurrentStatus"
when that argument is supplied; a guard failure (including an absent
item, which fails a DynamoDB condition expression) returns false without
reaching the projection update.  On success the by-id projection's
status and updated_at are rewritten as well (when that item exists; the
claims never exercise an UpdateItem that would create a sparse item at a
missing key, so item creation by UpdateItem is not modelled). -/
def updateOrderStatus (st : DB) (customerId orderTsId orderId : String)
    (newStatus : OrderStatus) (expectedCurrentStatus : Option OrderStatus)
    (now : String) : Bool × DB :=
  let proceed : Bool :=
    match expectedCurrentStatus with
    | none => true
    | some expected =>
        match Table.get st.orders (customerId, orderTsId) with
        | some rec => rec.status = expected
        | none => false
  if proceed then
    let st1 : DB :=
      { st with orders := (Table.modify st.orders (customerId, orderTsId)
          (fun rec => { rec with status := newStatus, updated_at := now })) }
    let st2 : DB :=
      { st1 with ordersById := (Table.modify st1.ordersById orderId
          (fun rec => { rec with status := newStatus, updated_at := now })) }
    (true, st2)
  else
    (false, st)

/-! ## Create-order handler (src/services/order-api/src/handlers/create-order.ts)

The handler is modelled from the point where the idempotency key has been
read and the body validated (earlier branches return 400 and never touch
storage).  The generated order id, the clock reading, and the injected
projection-put fault are explicit parameters. -/

/-- Subtotal computation (create-order.ts lines 55-58): a left fold of
quantity * unit_price over the request items. -/
def calcSubtotal (items : List CreateOrderItem) : ℚ :=
  items.foldl (fun sum item => sum + (item.quantity : ℚ) * item.unit_price) 0

/-- Order value assembled by the handler (create-order.ts lines 49-86). -/
def buildOrder (req : CreateOrderRequest) (idempotencyKey orderId orderTs : String) : Order :=
  let orderTsId := orderTs ++ "#" ++ orderId
  let subtotal := calcSubtotal req.items
  let tax := subtotal * (8 / 100)
  let total := subtotal + tax
  { customer_id := req.customer_id
    order_ts_id := orderTsId
    order_id := orderId
    order_ts := orderTs
    store_id := req.store_id
    county_id := req.county_id
    status := OrderStatus.PENDING
    payment_state := PaymentState.PENDING
    items := req.items.map (fun item =>
      { sku := item.sku
        name := item.name
        quantity := item.quantity
        unit_price := item.unit_price
        total_price := (item.quantity : ℚ) * item.unit_price })
    subtotal := subtotal
    tax := tax
    total := total
    shipping_address := req.shipping_address
    idempotency_key := idempotencyKey
    created_at := orderTs
    updated_at := orderTs }

/-- Body of the create-order response (the JSON object of
create-order.ts lines 107-118); `message` is present only on the
duplicate path. -/
structure CreateOrderRespBody where
  order_id : String
  customer_id : String
  status : OrderStatus
  payment_state : PaymentState
  items : List OrderItem
  subtotal : ℚ
  tax : ℚ
  total : ℚ
  created_at : String
  message : Option String
deriving DecidableEq, Repr

/-- Work-queue message sent after a fresh creation
(create-order.ts lines 92-100). -/
structure OrderProcessingMessage where
  order_id : String
  customer_id : String
  order_ts_id : String
  timestamp : String
deriving DecidableEq, Repr

structure CreateOrderOutcome where
  statusCode : Nat
  body : Option CreateOrderRespBody
  db : DB
  enqueued : List OrderProcessingMessage
deriving DecidableEq

/-- The POST /orders handler after validation (create-order.ts lines
49-129).  A thrown error from createOrder is caught and turned into a
500 with no order body. -/
def createOrderHandler (st : DB) (req : CreateOrderRequest)
    (idempotencyKey orderId orderTs : String) (byIdPutFails : Bool) : CreateOrderOutcome :=
  let order := buildOrder req idempotencyKey orderId orderTs
  match createOrder st order byIdPutFails with
  | (Except.error _, st') =>
      { statusCode := 500, body := none, db := st', enqueued := [] }
  | (Except.ok (created, returned), st') =>
      { statusCode := if created then 201 else 200
        body := some
          { order_id := returned.order_id
            customer_id := returned.customer_id
            status := returned.status
            payment_state := returned.payment_state
            items := returned.items
            subtotal := returned.subtotal
            tax := returned.tax
            total := returned.total
            created_at := returned.created_at
            message := if created then none else some "Order already exists (idempotent)" }
        db := st'
        enqueued :=
          if created then
            [{ order_id := orderId
               customer_id := req.customer_id
               order_ts_id := orderTs ++ "#" ++ orderId
               timestamp := orderTs }]
          else [] }

/-! ## Cancel-order handler (src/unnamed/part_005, cancel-order.ts) -/

/-- Statuses from which an order can be cancelled (cancel-order.ts
lines 9-12). -/
def CANCELLABLE_STATUSES : List OrderStatus :=
  [OrderStatus.PENDING, OrderStatus.CONFIRMED]

/-- Response of DELETE /orders/{order_id}; the optional fields mirror the
JSON bodies of the four non-500 branches. -/
structure CancelOrderOutcome where
  statusCode : Nat
  order_id : Option String
  current_status : Option OrderStatus
  status : Option OrderStatus
  db : DB
deriving DecidableEq

/-- The DELETE /orders/{order_id} handler (cancel-order.ts lines 18-104):
404 when the by-id projection has no record, 409 echoing the current
status when it is not cancellable, otherwise a guarded transition to
CANCELLED via updateOrderStatus with the projection's status as the
expected current status; a guard failure is reported as 409. -/
def cancelOrderHandler (st : DB) (orderIdParam : Option String) (now : String) :
    CancelOrderOutcome :=
  match orderIdParam with
  | none =>
      { statusCode := 400, order_id := none, current_status := none, status := none, db := st }
  | some orderId =>
      match Table.get st.ordersById orderId with
      | none =>
          { statusCode := 404, order_id := some orderId, current_status := none
            status := none, db := st }
      | some order =>
          if order.status ∈ CANCELLABLE_STATUSES then
            let orderTsId := order.order_ts ++ "#" ++ order.order_id
            let result := updateOrderStatus st order.customer_id orderTsId orderId
              OrderStatus.CANCELLED (some order.status) now
            if result.1 then
              { statusCode := 200, order_id := some orderId, current_status := none
                status := some OrderStatus.CANCELLED, db := result.2 }
            else
              { statusCode := 409, order_id := some orderId, current_status := none
                status := none, db := result.2 }
          else
            { statusCode := 409, order_id := some orderId
              current_status := some order.status, status := none, db := st }

/-! ## Inventory reservation handler
(src/services/order-processor/src/handlers/reserve-inventory.ts) -/

structure ReserveRequest where
  order_id : String
  customer_id : String
  store_id : String
  items : List OrderItem
deriving DecidableEq, Repr

structure FailedItem where
  sku : String
  requested : Int
  available : Int
deriving DecidableEq, Repr

structure ReserveResponse where
  success : Bool
  reservation_id : Option String
  failed_items : Option (List FailedItem)
  error : Option String
deriving DecidableEq, Repr

/-- Phase-1 availability check for one item (reserve-inventory.ts lines
50-72): a missing inventory row counts as 0 available; missing quantity
attributes default to 0. -/
structure AvailCheck where
  sku : String
  store_sku : String
  requested : Int
  available : Int
  sufficient : Bool
deriving DecidableEq, Repr

def checkItem (inv : Table String InventoryRecord) (storeId : String)
    (item : OrderItem) : AvailCheck :=
  let storeSku := storeId ++ "#" ++ item.sku
  let available : Int :=
    match Table.get inv storeSku with
    | some rec => rec.quantity_available.getD 0 - rec.quantity_reserved.getD 0
    | none => 0
  { sku := item.sku
    store_sku := storeSku
    requested := (item.quantity : Int)
    available := available
    sufficient := available ≥ (item.quantity : Int) }

/-- Commit-time condition of one transaction item (reserve-inventory.ts
lines 102-103): `(quantity_available - if_not_exists(quantity_reserved, 0))
>= qty`.  A condition over a missing item or a missing
quantity_available attribute fails. -/
def reserveCondition (inv : Table String InventoryRecord) (storeSku : String)
    (qty : Nat) : Bool :=
  match Table.get inv storeSku with
  | some rec =>
      match rec.quantity_available with
      | some qa => qa - rec.quantity_reserved.getD 0 ≥ (qty : Int)
      | none => false
  | none => false

/-- Effect of one transaction item once its condition holds: increment
quantity_reserved (defaulting a missing attribute to 0) and refresh
updated_at. -/
def applyReservation (inv : Table String InventoryRecord) (storeSku : String)
    (qty : Nat) (now : String) : Table String InventoryRecord :=
  Table.modify inv storeSku (fun rec =>
    { rec with quantity_reserved := some (rec.quantity_reserved.getD 0 + (qty : Int))
               updated_at := now })

/-- The reserve-inventory handler (reserve-inventory.ts lines 37-137).
Phase 1 reads availability for every item and rejects the whole request
listing each insufficient item.  Phase 2 is a single TransactWriteItems:
every item's condition is checked against the pre-transaction state and
either all updates apply or none do (a cancelled transaction reports the
retryable "inventory changed" error). -/
def reserveInventory (st : DB) (event : ReserveRequest)
    (reservationId now : String) : ReserveResponse × DB :=
  let checks := event.items.map (checkItem st.inventory event.store_id)
  let insufficientItems := checks.filter (fun c => !c.sufficient)
  if insufficientItems.isEmpty then
    if event.items.all (fun item =>
        reserveCondition st.inventory (event.store_id ++ "#" ++ item.sku) item.quantity) then
      let inv' := event.items.foldl (fun inv item =>
        applyReservation inv (event.store_id ++ "#" ++ item.sku) item.quantity now) st.inventory
      ({ success := true, reservation_id := some reservationId
         failed_items := none, error := none }, { st with inventory := inv' })
    else
      ({ success := false, reservation_id := none, failed_items := none
         error := some "Inventory changed during reservation, please retry" }, st)
  else
    ({ success := false
       reservation_id := none
       failed_items := some (insufficientItems.map (fun i =>
         { sku := i.sku, requested := i.requested, available := i.available }))
       error := some "Insufficient inventory" }, st)

/-! ## Payment handler (src/unnamed/part_011, process-payment.ts) -/

structure ProcessPaymentRequest where
  order_id : String
  customer_id : String
  amount : ℚ
deriving DecidableEq, Repr

structure ProcessPaymentResponse where
  success : Bool
  transaction_id : Option String
  payment_state : Option PaymentState
  error : Option String
deriving DecidableEq, Repr

/-- simulatePayment (process-payment.ts lines 102-114): fails for
non-positive amounts, otherwise the outcome of the random draw
`random < 0.95`, passed in as `randomBelowRate`. -/
def simulatePayment (amount : ℚ) (randomBelowRate : Bool) : Bool :=
  if amount ≤ 0 then false else randomBelowRate

/-- The process-payment handler (process-payment.ts lines 33-84): decide
the outcome, then UpdateItem on the by-id projection setting
payment_state and updated_at (the primary orders table is never
touched).  The UpdateItem has no condition; the claims only exercise it
with the projection record present, so creation of a sparse item at a
missing key is not modelled. -/
def processPayment (st : DB) (event : ProcessPaymentRequest)
    (randomBelowRate : Bool) (transactionId now : String) :
    ProcessPaymentResponse × DB :=
  let paymentSuccess := simulatePayment event.amount randomBelowRate
  let paymentState := if paymentSuccess then PaymentState.CAPTURED else PaymentState.FAILED
  let st' : DB :=
    { st with ordersById := (Table.modify st.ordersById event.order_id
        (fun rec => { rec with payment_state := paymentState, updated_at := now })) }
  if paymentSuccess then
    ({ success := true, transaction_id := some transactionId
       payment_state := some PaymentState.CAPTURED, error := none }, st')
  else
    ({ success := false, transaction_id := none
       payment_state := some PaymentState.FAILED, error := some "Payment declined" }, st')

/-! ## Saga orchestrator (src/unnamed/part_010, process-order.ts) -/

/-- Observable side calls made by the orchestrator while handling one
work item: the reserve-inventory invocation, the payment invocation, and
the fire-and-forget notification. -/
inductive Invocation
  | reserveInv (order_id store_id : String) (items : List OrderItem)
  | paymentInv (order_id : String) (amount : ℚ)
  | notifyInv (order_id : String) (status : OrderStatus)
deriving DecidableEq, Repr

/-- Result of invokeFunction (process-order.ts lines 152-185): `success`
is the transport-level flag, which is true whenever the target returned
normally; the target's own response travels in `data`.  The modelled
handlers always return normally, so the wrapper always succeeds. -/
structure InvokeResult (α : Type) where
  success : Bool
  data : Option α

def invokeWrapped {α : Type} (resp : α) : InvokeResult α :=
  { success := true, data := some resp }

/-- failOrder (process-order.ts lines 116-147): re-fetch the order, mark
it FAILED guarded by "status is still PENDING", then fire the failure
notification. -/
def failOrder (st : DB) (msg : OrderProcessingMessage) (now : String) :
    DB × List Invocation :=
  let st' :=
    match Table.get st.ordersById msg.order_id with
    | some order =>
        (updateOrderStatus st msg.customer_id (order.order_ts ++ "#" ++ order.order_id)
          msg.order_id OrderStatus.FAILED (some OrderStatus.PENDING) now).2
    | none => st
  (st', [Invocation.notifyInv msg.order_id OrderStatus.FAILED])

/-- Handling of one SQS record by the orchestrator (process-order.ts
lines 29-107).  Returns the resulting store state, the log of side
calls, and whether the record is reported in batchItemFailures.  A
missing order or a non-PENDING status is acknowledged without any side
call.  Note that the code tests `inventoryResult.success` and
`paymentResult.success`, i.e. the transport-level flags of
invokeFunction, which are true even when the invoked handler reported a
business failure in its response body; the model preserves this. -/
def processOrderRecord (st : DB) (msg : OrderProcessingMessage)
    (reservationId transactionId now : String) (randomBelowRate : Bool) :
    DB × List Invocation × Bool :=
  match Table.get st.ordersById msg.order_id with
  | none => (st, [], false)
  | some order =>
      if order.status ≠ OrderStatus.PENDING then
        (st, [], false)
      else
        let reserveCall := reserveInventory st
          { order_id := msg.order_id, customer_id := msg.customer_id
            store_id := order.store_id, items := order.items } reservationId now
        let inventoryResult := invokeWrapped reserveCall.1
        let st1 := reserveCall.2
        let log1 := [Invocation.reserveInv msg.order_id order.store_id order.items]
        if !inventoryResult.success then
          let failed := failOrder st1 msg now
          (failed.1, log1 ++ failed.2, false)
        else
          let payCall := processPayment st1
            { order_id := msg.order_id, customer_id := msg.customer_id
              amount := order.total } randomBelowRate transactionId now
          let paymentResult := invokeWrapped payCall.1
          let st2 := payCall.2
          let log2 := log1 ++ [Invocation.paymentInv msg.order_id order.total]
          if !paymentResult.success then
            let failed := failOrder st2 msg now
            (failed.1, log2 ++ failed.2, false)
          else
            let orderTsId := order.order_ts ++ "#" ++ order.order_id
            let upd := updateOrderStatus st2 msg.customer_id orderTsId msg.order_id
              OrderStatus.CONFIRMED (some OrderStatus.PENDING) now
            if !upd.1 then
              (upd.2, log2, true)
            else
              (upd.2, log2 ++ [Invocation.notifyInv msg.order_id OrderStatus.CONFIRMED], false)

/-! ## Change event transformer
(src/services/order-processor/src/handlers/send-notifications.ts,
stream-processor part, transformToDomainEvents lines 221-382) -/

inductive StreamEventName
  | INSERT
  | MODIFY
  | REMOVE
deriving DecidableEq, Repr

/-- Domain events published to the event bus, carrying the identifying
fields of the JSON Detail payloads. -/
inductive DomainEvent
  | orderCreated (order_id customer_id : String) (status : OrderStatus) (total : ℚ)
  | orderStatusChanged (order_id : String) (old_status new_status : OrderStatus)
  | orderConfirmed (order_id : String)
  | orderCancelled (order_id : String)
  | orderShipped (order_id : String)
  | paymentStateChanged (order_id : String) (old_state new_state : PaymentState)
  | orderDeleted (order_id : String)
deriving DecidableEq, Repr

/-- The three status-specific emissions inside the MODIFY branch
(send-notifications.ts lines 284-337): three independent ifs, at most
one of which can fire. -/
def statusSpecificEvents (newImage : Order) : List DomainEvent :=
  (if newImage.status = OrderStatus.CONFIRMED
    then [DomainEvent.orderConfirmed newImage.order_id] else []) ++
  (if newImage.status = OrderStatus.CANCELLED
    then [DomainEvent.orderCancelled newImage.order_id] else []) ++
  (if newImage.status = OrderStatus.SHIPPED
    then [DomainEvent.orderShipped newImage.order_id] else [])

/-- transformToDomainEvents (send-notifications.ts lines 221-382):
INSERT with a new image emits OrderCreated; MODIFY with both images
emits the status-change block when status differs and, independently,
PaymentStateChanged when payment_state differs; REMOVE with an old image
emits OrderDeleted. -/
def transformToDomainEvents (eventName : StreamEventName)
    (oldImage newImage : Option Order) : List DomainEvent :=
  match eventName with
  | StreamEventName.INSERT =>
      match newImage with
      | some n => [DomainEvent.orderCreated n.order_id n.customer_id n.status n.total]
      | none => []
  | StreamEventName.MODIFY =>
      match oldImage, newImage with
      | some o, some n =>
          (if n.status ≠ o.status
            then DomainEvent.orderStatusChanged n.order_id o.status n.status ::
              statusSpecificEvents n
            else []) ++
          (if n.payment_state ≠ o.payment_state
            then [DomainEvent.paymentStateChanged n.order_id o.payment_state n.payment_state]
            else [])
      | _, _ => []
  | StreamEventName.REMOVE =>
      match oldImage with
      | some o => [DomainEvent.orderDeleted o.order_id]
      | none => []

/-! ## Concrete sample values used by witnesses -/

def sampleAddress : Address :=
  { street := "1 Main St", city := "Springfield", state := "CA", zip := "90001" }

def sampleItemWine : OrderItem :=
  { sku := "WINE-001", name := "Red Wine", quantity := 2, unit_price := 25, total_price := 50 }

def sampleItemBeer : OrderItem :=
  { sku := "BEER-001", name := "Lager", quantity := 6, unit_price := 8, total_price := 48 }

def sampleOrder (s : OrderStatus) : Order :=
  { customer_id := "CUST-1"
    order_ts_id := "2024-01-01T00:00:00Z#ORD-1"
    order_id := "ORD-1"
    order_ts := "2024-01-01T00:00:00Z"
    store_id := "STORE-1"
    county_id := "COUNTY-1"
    status := s
    payment_state := PaymentState.PENDING
    items := [sampleItemWine, sampleItemBeer]
    subtotal := 98
    tax := 784 / 100
    total := 10584 / 100
    shipping_address := sampleAddress
    idempotency_key := "idem-key-001"
    created_at := "2024-01-01T00:00:00Z"
    updated_at := "2024-01-01T00:00:00Z" }

/-- Store state holding one order in the given status, consistently in
both projections. -/
def sampleDB (s : OrderStatus) : DB :=
  { orders := [(("CUST-1", "2024-01-01T00:00:00Z#ORD-1"), sampleOrder s)]
    ordersById := [("ORD-1", toOrderById (sampleOrder s))]
    inventory := [] }

/-! ## Claim C3 -/

/-- Claim C3: for every order record and every supplied
expectedCurrentStatus differing from the record's current status,
updateOrderStatus mutates nothing (neither the primary record nor the
by-id projection) and returns the stale-state signal false. -/
theorem updateOrderStatus_stale_no_mutation (st : DB)
    (customerId orderTsId orderId : String) (newStatus : OrderStatus)
    (expected : OrderStatus) (now : String) (rec : Order)
    (hget : Table.get st.orders (customerId, orderTsId) = some rec)
    (hne : rec.status ≠ expected) :
    updateOrderStatus st customerId orderTsId orderId newStatus (some expected) now
      = (false, st) := by
  simp [updateOrderStatus, hget, hne]

/-- Witness for C3: a CONFIRMED order with expected status PENDING is
left untouched and the call reports stale. -/
theorem updateOrderStatus_stale_no_mutation_witness :
    updateOrderStatus (sampleDB OrderStatus.CONFIRMED) "CUST-1"
      "2024-01-01T00:00:00Z#ORD-1" "ORD-1" OrderStatus.CANCELLED
      (some OrderStatus.PENDING) "2024-01-02T00:00:00Z"
      = (false, sampleDB OrderStatus.CONFIRMED) :=
  updateOrderStatus_stale_no_mutation (sampleDB OrderStatus.CONFIRMED) "CUST-1"
    "2024-01-01T00:00:00Z#ORD-1" "ORD-1" OrderStatus.CANCELLED
    OrderStatus.PENDING "2024-01-02T00:00:00Z" (sampleOrder OrderStatus.CONFIRMED)
    rfl (by decide)

/-! ## Claim C6 -/

/-- Claim C6: a work item whose re-fetched order is not PENDING is
acknowledged as processed: the store state is unchanged, no reservation,
payment or notification call is made, and the item is not reported as a
batch failure. -/
theorem processOrderRecord_non_pending_noop (st : DB) (msg : OrderProcessingMessage)
    (reservationId transactionId now : String) (randomBelowRate : Bool)
    (order : OrderById)
    (hget : Table.get st.ordersById msg.order_id = some order)
    (hne : order.status ≠ OrderStatus.PENDING) :
    processOrderRecord st msg reservationId transactionId now randomBelowRate
      = (st, [], false) := by
  simp [processOrderRecord, hget, hne]

/-- Witness for C6: a work item for an already CONFIRMED order is a
no-op and is not reported failed. -/
theorem processOrderRecord_non_pending_noop_witness :
    processOrderRecord (sampleDB OrderStatus.CONFIRMED)
      { order_id := "ORD-1", customer_id := "CUST-1"
        order_ts_id := "2024-01-01T00:00:00Z#ORD-1"
        timestamp := "2024-01-01T00:00:00Z" }
      "RES-1" "TXN-1" "2024-01-02T00:00:00Z" true
      = (sampleDB OrderStatus.CONFIRMED, [], false) :=
  processOrderRecord_non_pending_noop (sampleDB OrderStatus.CONFIRMED)
    { order_id := "ORD-1", customer_id := "CUST-1"
      order_ts_id := "2024-01-01T00:00:00Z#ORD-1"
      timestamp := "2024-01-01T00:00:00Z" }
    "RES-1" "TXN-1" "2024-01-02T00:00:00Z" true
    (toOrderById (sampleOrder OrderStatus.CONFIRMED)) rfl (by decide)

/-! ## Claim C5 -/

/-- Claim C5: for a MODIFY record with both images, if only the payment
state differs the transformer emits exactly the one PaymentStateChanged
event and no status event; if both status and payment state differ it
emits OrderStatusChanged and PaymentStateChanged, together with exactly
one status-specific event when the new status is CONFIRMED, CANCELLED or
SHIPPED and none otherwise. -/
theorem transform_modify_payment_and_status (before after : Order) :
    (after.status = before.status → after.payment_state ≠ before.payment_state →
      transformToDomainEvents StreamEventName.MODIFY (some before) (some after)
        = [DomainEvent.paymentStateChanged after.order_id before.payment_state
            after.payment_state]) ∧
    (after.status ≠ before.status → after.payment_state ≠ before.payment_state →
      (after.status = OrderStatus.CONFIRMED →
        transformToDomainEvents StreamEventName.MODIFY (some before) (some after)
          = [DomainEvent.orderStatusChanged after.order_id before.status after.status,
             DomainEvent.orderConfirmed after.order_id,
             DomainEvent.paymentStateChanged after.order_id before.payment_state
               after.payment_state]) ∧
      (after.status = OrderStatus.CANCELLED →
        transformToDomainEvents StreamEventName.MODIFY (some before) (some after)
          = [DomainEvent.orderStatusChanged after.order_id before.status after.status,
             DomainEvent.orderCancelled after.order_id,
             DomainEvent.paymentStateChanged after.order_id before.payment_state
               after.payment_state]) ∧
      (after.status = OrderStatus.SHIPPED →
        transformToDomainEvents StreamEventName.MODIFY (some before) (some after)
          = [DomainEvent.orderStatusChanged after.order_id before.status after.status,
             DomainEvent.orderShipped after.order_id,
             DomainEvent.paymentStateChanged after.order_id before.payment_state
               after.payment_state]) ∧
      (after.status ≠ OrderStatus.CONFIRMED → after.status ≠ OrderStatus.CANCELLED →
        after.status ≠ OrderStatus.SHIPPED →
        transformToDomainEvents StreamEventName.MODIFY (some before) (some after)
          = [DomainEvent.orderStatusChanged after.order_id before.status after.status,
             DomainEvent.paymentStateChanged after.order_id before.payment_state
               after.payment_state])) := by
  constructor
  · intro hs hp
    simp [transformToDomainEvents, hs, hp]
  · intro hs hp
    refine ⟨?_, ?_, ?_, ?_⟩
    · intro hc
      have hs' : OrderStatus.CONFIRMED ≠ before.status := fun h => hs (hc.trans h)
      simp [transformToDomainEvents, statusSpecificEvents, hs, hp, hc, hs']
    · intro hc
      have hs' : OrderStatus.CANCELLED ≠ before.status := fun h => hs (hc.trans h)
      simp [transformToDomainEvents, statusSpecificEvents, hs, hp, hc, hs']
    · intro hc
      have hs' : OrderStatus.SHIPPED ≠ before.status := fun h => hs (hc.trans h)
      simp [transformToDomainEvents, statusSpecificEvents, hs, hp, hc, hs']
    · intro h1 h2 h3
      simp [transformToDomainEvents, statusSpecificEvents, hs, hp, h1, h2, h3]

/-- Witness for C5: a payment-only change emits exactly the payment
event, and a PENDING-to-CONFIRMED change with a payment change emits
the status event, the confirmed event and the payment event. -/
theorem transform_modify_payment_and_status_witness :
    transformToDomainEvents StreamEventName.MODIFY
      (some (sampleOrder OrderStatus.PENDING))
      (some { sampleOrder OrderStatus.PENDING with
        payment_state := PaymentState.CAPTURED })
      = [DomainEvent.paymentStateChanged "ORD-1" PaymentState.PENDING
          PaymentState.CAPTURED] ∧
    transformToDomainEvents StreamEventName.MODIFY
      (some (sampleOrder OrderStatus.PENDING))
      (some { sampleOrder OrderStatus.PENDING with
        status := OrderStatus.CONFIRMED, payment_state := PaymentState.CAPTURED })
      = [DomainEvent.orderStatusChanged "ORD-1" OrderStatus.PENDING
          OrderStatus.CONFIRMED,
         DomainEvent.orderConfirmed "ORD-1",
         DomainEvent.paymentStateChanged "ORD-1" PaymentState.PENDING
          PaymentState.CAPTURED] :=
  ⟨(transform_modify_payment_and_status (sampleOrder OrderStatus.PENDING)
      { sampleOrder OrderStatus.PENDING with
        payment_state := PaymentState.CAPTURED }).1 (by decide) (by decide),
   ((transform_modify_payment_and_status (sampleOrder OrderStatus.PENDING)
      { sampleOrder OrderStatus.PENDING with
        status := OrderStatus.CONFIRMED
        payment_state := PaymentState.CAPTURED }).2 (by decide) (by decide)).1
     (by decide)⟩

/-! ## Claims C2 and C9: reservation rejection -/

theorem checkItem_sufficient_eq (inv : Table String InventoryRecord) (s : String)
    (it : OrderItem) :
    (checkItem inv s it).sufficient
      = decide ((checkItem inv s it).available ≥ (it.quantity : Int)) := rfl

theorem checkItem_requested_eq (inv : Table String InventoryRecord) (s : String)
    (it : OrderItem) : (checkItem inv s it).requested = (it.quantity : Int) := rfl

theorem checkItem_sku_eq (inv : Table String InventoryRecord) (s : String)
    (it : OrderItem) : (checkItem inv s it).sku = it.sku := rfl

/-- Shared shape of the phase-1 rejection branch: whenever some check is
insufficient, the handler returns the failure response listing exactly
the insufficient checks and leaves the store untouched. -/
theorem reserveInventory_reject_of_insufficient (st : DB) (event : ReserveRequest)
    (reservationId now : String)
    (h : (event.items.map (checkItem st.inventory event.store_id)).filter
      (fun c => !c.sufficient) ≠ []) :
    reserveInventory st event reservationId now =
      ({ success := false
         reservation_id := none
         failed_items := some (((event.items.map (checkItem st.inventory event.store_id)).filter
           (fun c => !c.sufficient)).map (fun i =>
             { sku := i.sku, requested := i.requested, available := i.available }))
         error := some "Insufficient inventory" }, st) := by
  have hne : ((event.items.map (checkItem st.inventory event.store_id)).filter
      (fun c => !c.sufficient)).isEmpty = false := by
    cases hl : (event.items.map (checkItem st.inventory event.store_id)).filter
        (fun c => !c.sufficient) with
    | nil => exact absurd hl h
    | cons a l => rfl
  simp [reserveInventory, hne]

/-- Claim C2: whenever at least one requested item has available
quantity (quantityAvailable minus quantityReserved) below the requested
quantity, the whole reservation is rejected, every insufficient item is
reported with its requested and available quantities, and the store
state (in particular every quantity_reserved) is unchanged. -/
theorem reserveInventory_all_or_nothing (st : DB) (event : ReserveRequest)
    (reservationId now : String)
    (h : ∃ it ∈ event.items,
      (checkItem st.inventory event.store_id it).available < (it.quantity : Int)) :
    (reserveInventory st event reservationId now).1.success = false ∧
    (reserveInventory st event reservationId now).1.error = some "Insufficient inventory" ∧
    (reserveInventory st event reservationId now).2 = st ∧
    (reserveInventory st event reservationId now).1.failed_items
      = some (((event.items.map (checkItem st.inventory event.store_id)).filter
          (fun c => !c.sufficient)).map (fun i =>
            { sku := i.sku, requested := i.requested, available := i.available })) ∧
    (∀ it ∈ event.items,
      (checkItem st.inventory event.store_id it).available < (it.quantity : Int) →
      ({ sku := it.sku, requested := (it.quantity : Int)
         available := (checkItem st.inventory event.store_id it).available } : FailedItem)
        ∈ ((reserveInventory st event reservationId now).1.failed_items.getD [])) := by
  obtain ⟨it0, hmem0, hlt0⟩ := h
  have hsuff0 : (checkItem st.inventory event.store_id it0).sufficient = false := by
    rw [checkItem_sufficient_eq]
    exact decide_eq_false (not_le.mpr hlt0)
  have hcmem0 : checkItem st.inventory event.store_id it0 ∈
      (event.items.map (checkItem st.inventory event.store_id)).filter
        (fun c => !c.sufficient) :=
    List.mem_filter.mpr ⟨List.mem_map_of_mem _ hmem0, by simp [hsuff0]⟩
  have hr := reserveInventory_reject_of_insufficient st event reservationId now
    (List.ne_nil_of_mem hcmem0)
  refine ⟨by simp [hr], by simp [hr], by simp [hr], by simp [hr], ?_⟩
  intro it hmem hlt
  have hsuff : (checkItem st.inventory event.store_id it).sufficient = false := by
    rw [checkItem_sufficient_eq]
    exact decide_eq_false (not_le.mpr hlt)
  have hcmem : checkItem st.inventory event.store_id it ∈
      (event.items.map (checkItem st.inventory event.store_id)).filter
        (fun c => !c.sufficient) :=
    List.mem_filter.mpr ⟨List.mem_map_of_mem _ hmem, by simp [hsuff]⟩
  have hmemf : (FailedItem.mk it.sku (it.quantity : Int) (checkItem st.inventory event.store_id it).available)
      ∈ ((event.items.map (checkItem st.inventory event.store_id)).filter
        (fun c => !c.sufficient)).map (fun i =>
          ({ sku := i.sku, requested := i.requested, available := i.available } : FailedItem)) :=
    List.mem_map.mpr ⟨checkItem st.inventory event.store_id it, hcmem, rfl⟩
  simpa [hr] using hmemf

/-- Store state for the spec scenario: 5 available, 3 reserved for
STORE-1#WINE-001. -/
def lowStockDB : DB :=
  { orders := []
    ordersById := []
    inventory := [("STORE-1#WINE-001",
      { quantity_available := some 5, quantity_reserved := some 3
        updated_at := "2024-01-01T00:00:00Z" })] }

def wineTenRequest : ReserveRequest :=
  { order_id := "ORD-1", customer_id := "CUST-1", store_id := "STORE-1"
    items := [{ sku := "WINE-001", name := "Red Wine", quantity := 10
                unit_price := 25, total_price := 250 }] }

/-- Witness for C2 (the spec's scenario): requesting 10 units with 2
effectively available is rejected, reporting requested 10 and available
2, with the store unchanged. -/
theorem reserveInventory_all_or_nothing_witness :
    (reserveInventory lowStockDB wineTenRequest "RES-1" "2024-01-02T00:00:00Z").1.success
      = false ∧
    (reserveInventory lowStockDB wineTenRequest "RES-1" "2024-01-02T00:00:00Z").2
      = lowStockDB ∧
    ({ sku := "WINE-001", requested := 10, available := 2 } : FailedItem)
      ∈ ((reserveInventory lowStockDB wineTenRequest "RES-1"
          "2024-01-02T00:00:00Z").1.failed_items.getD []) := by
  have h := reserveInventory_all_or_nothing lowStockDB wineTenRequest
    "RES-1" "2024-01-02T00:00:00Z"
    ⟨{ sku := "WINE-001", name := "Red Wine", quantity := 10
       unit_price := 25, total_price := 250 }, by decide, by decide⟩
  exact ⟨h.1, h.2.2.1, by decide⟩

/-- Claim C9: an item whose (storeId, sku) key has no inventory record
is treated as having 0 available, so any positive requested quantity for
it rejects the whole reservation with that item reported at available 0,
leaving the store unchanged (no error, no record creation). -/
theorem reserveInventory_unknown_sku (st : DB) (event : ReserveRequest)
    (reservationId now : String) (it : OrderItem)
    (hmem : it ∈ event.items)
    (hnone : Table.get st.inventory (event.store_id ++ "#" ++ it.sku) = none)
    (hpos : 0 < it.quantity) :
    (checkItem st.inventory event.store_id it).available = 0 ∧
    (reserveInventory st event reservationId now).1.success = false ∧
    (reserveInventory st event reservationId now).1.error = some "Insufficient inventory" ∧
    (reserveInventory st event reservationId now).2 = st ∧
    ({ sku := it.sku, requested := (it.quantity : Int), available := 0 } : FailedItem)
      ∈ ((reserveInventory st event reservationId now).1.failed_items.getD []) := by
  have havail : (checkItem st.inventory event.store_id it).available = 0 := by
    simp [checkItem, hnone]
  have hlt : (checkItem st.inventory event.store_id it).available < (it.quantity : Int) := by
    rw [havail]
    exact_mod_cast hpos
  have hsuff : (checkItem st.inventory event.store_id it).sufficient = false := by
    rw [checkItem_sufficient_eq]
    exact decide_eq_false (not_le.mpr hlt)
  have hcmem : checkItem st.inventory event.store_id it ∈
      (event.items.map (checkItem st.inventory event.store_id)).filter
        (fun c => !c.sufficient) :=
    List.mem_filter.mpr ⟨List.mem_map_of_mem _ hmem, by simp [hsuff]⟩
  have hr := reserveInventory_reject_of_insufficient st event reservationId now
    (List.ne_nil_of_mem hcmem)
  have hmemf : (FailedItem.mk it.sku (it.quantity : Int) 0)
      ∈ ((event.items.map (checkItem st.inventory event.store_id)).filter
        (fun c => !c.sufficient)).map (fun i =>
          ({ sku := i.sku, requested := i.requested, available := i.available } : FailedItem)) := by
    refine List.mem_map.mpr ⟨checkItem st.inventory event.store_id it, hcmem, ?_⟩
    simp [checkItem_sku_eq, checkItem_requested_eq, havail]
  exact ⟨havail, by simp [hr], by simp [hr], by simp [hr], by simpa [hr] using hmemf⟩

def unknownSkuRequest : ReserveRequest :=
  { order_id := "ORD-2", customer_id := "CUST-1", store_id := "STORE-1"
    items := [{ sku := "GIN-404", name := "Gin", quantity := 1
                unit_price := 30, total_price := 30 }] }

/-- Witness for C9: reserving 1 unit of a SKU with no inventory record
is rejected with available 0 and the store unchanged. -/
theorem reserveInventory_unknown_sku_witness :
    (reserveInventory lowStockDB unknownSkuRequest "RES-2" "2024-01-02T00:00:00Z").1.success
      = false ∧
    (reserveInventory lowStockDB unknownSkuRequest "RES-2" "2024-01-02T00:00:00Z").2
      = lowStockDB ∧
    ({ sku := "GIN-404", requested := 1, available := 0 } : FailedItem)
      ∈ ((reserveInventory lowStockDB unknownSkuRequest "RES-2"
          "2024-01-02T00:00:00Z").1.failed_items.getD []) := by
  have h := reserveInventory_unknown_sku lowStockDB unknownSkuRequest
    "RES-2" "2024-01-02T00:00:00Z"
    { sku := "GIN-404", name := "Gin", quantity := 1, unit_price := 30, total_price := 30 }
    (by decide) (by decide) (by decide)
  exact ⟨h.2.1, h.2.2.2.1, h.2.2.2.2⟩

/-! ## Claim C10: payment handler frame property -/

/-- Claim C10: the payment handler writes only the by-id projection,
changing just payment_state and updated_at of the addressed record; the
primary orders table (keyed by customer and timestamped sort key) and
the inventory table are untouched, and every other by-id record is
untouched, whatever the payment outcome.  The primary record's
payment_state therefore keeps its prior value after every attempt. -/
theorem processPayment_frame (st : DB) (event : ProcessPaymentRequest)
    (randomBelowRate : Bool) (transactionId now : String) :
    ((processPayment st event randomBelowRate transactionId now).2).orders = st.orders ∧
    ((processPayment st event randomBelowRate transactionId now).2).inventory
      = st.inventory ∧
    (∀ oid, oid ≠ event.order_id →
      Table.get ((processPayment st event randomBelowRate transactionId now).2).ordersById
        oid = Table.get st.ordersById oid) ∧
    (∀ rec, Table.get st.ordersById event.order_id = some rec →
      Table.get ((processPayment st event randomBelowRate transactionId now).2).ordersById
          event.order_id
        = some { rec with
            payment_state := if simulatePayment event.amount randomBelowRate
              then PaymentState.CAPTURED else PaymentState.FAILED
            updated_at := now }) := by
  refine ⟨?_, ?_, ?_, ?_⟩
  · cases h : simulatePayment event.amount randomBelowRate <;> simp [processPayment, h]
  · cases h : simulatePayment event.amount randomBelowRate <;> simp [processPayment, h]
  · intro oid hne
    cases h : simulatePayment event.amount randomBelowRate <;>
      simp [processPayment, h, Table.get_modify_ne _ _ _ _ (Ne.symm hne)]
  · intro rec hrec
    cases h : simulatePayment event.amount randomBelowRate <;>
      simp [processPayment, h, Table.get_modify_self _ _ _ rec hrec]

def samplePayRequest : ProcessPaymentRequest :=
  { order_id := "ORD-1", customer_id := "CUST-1", amount := 100 }

/-- Witness for C10: a successful payment attempt on the sample order
leaves the primary table (and its PENDING payment_state) intact and
rewrites only the projection's payment_state and updated_at. -/
theorem processPayment_frame_witness :
    ((processPayment (sampleDB OrderStatus.PENDING) samplePayRequest true "TXN-1"
      "2024-01-02T00:00:00Z").2).orders = (sampleDB OrderStatus.PENDING).orders ∧
    Table.get ((processPayment (sampleDB OrderStatus.PENDING) samplePayRequest true "TXN-1"
        "2024-01-02T00:00:00Z").2).ordersById "ORD-1"
      = some { toOrderById (sampleOrder OrderStatus.PENDING) with
          payment_state := PaymentState.CAPTURED
          updated_at := "2024-01-02T00:00:00Z" } := by
  have h := processPayment_frame (sampleDB OrderStatus.PENDING) samplePayRequest true
    "TXN-1" "2024-01-02T00:00:00Z"
  refine ⟨h.1, ?_⟩
  have h4 := h.2.2.2 (toOrderById (sampleOrder OrderStatus.PENDING)) rfl
  have hsim : simulatePayment samplePayRequest.amount true = true := by
    norm_num [simulatePayment, samplePayRequest]
  rw [hsim] at h4
  simpa using h4

/-! ## Claim C4: cancellation endpoint -/

/-- Claim C4: DELETE /orders/{orderId} returns 404 when the order is
absent; 409 echoing the current status when that status is not PENDING
or CONFIRMED; 200 with both projections transitioned to CANCELLED when
the status is PENDING or CONFIRMED and the primary record still carries
that status; and 409 when the primary record's status has concurrently
diverged from the projection's (or the primary record is missing), in
which case nothing is mutated. -/
theorem cancelOrder_spec (st : DB) (oid now : String) :
    (Table.get st.ordersById oid = none →
      cancelOrderHandler st (some oid) now
        = { statusCode := 404, order_id := some oid, current_status := none
            status := none, db := st }) ∧
    (∀ order, Table.get st.ordersById oid = some order →
      (order.status ∉ CANCELLABLE_STATUSES →
        cancelOrderHandler st (some oid) now
          = { statusCode := 409, order_id := some oid
              current_status := some order.status, status := none, db := st }) ∧
      (order.status ∈ CANCELLABLE_STATUSES →
        (∀ p, Table.get st.orders
            (order.customer_id, order.order_ts ++ "#" ++ order.order_id) = some p →
          (p.status = order.status →
            (cancelOrderHandler st (some oid) now).statusCode = 200 ∧
            (cancelOrderHandler st (some oid) now).status = some OrderStatus.CANCELLED ∧
            Table.get (cancelOrderHandler st (some oid) now).db.orders
                (order.customer_id, order.order_ts ++ "#" ++ order.order_id)
              = some { p with status := OrderStatus.CANCELLED, updated_at := now } ∧
            Table.get (cancelOrderHandler st (some oid) now).db.ordersById oid
              = some { order with status := OrderStatus.CANCELLED, updated_at := now }) ∧
          (p.status ≠ order.status →
            cancelOrderHandler st (some oid) now
              = { statusCode := 409, order_id := some oid, current_status := none
                  status := none, db := st })) ∧
        (Table.get st.orders
            (order.customer_id, order.order_ts ++ "#" ++ order.order_id) = none →
          cancelOrderHandler st (some oid) now
            = { statusCode := 409, order_id := some oid, current_status := none
                status := none, db := st }))) := by
  constructor
  · intro hnone
    simp [cancelOrderHandler, hnone]
  · intro order hsome
    refine ⟨?_, ?_⟩
    · intro hnc
      simp [cancelOrderHandler, hsome, hnc]
    · intro hc
      refine ⟨?_, ?_⟩
      · intro p hp
        refine ⟨?_, ?_⟩
        · intro heq
          simp only [cancelOrderHandler, hsome, hc, if_true, reduceIte]
          have hupd : updateOrderStatus st order.customer_id
              (order.order_ts ++ "#" ++ order.order_id) oid OrderStatus.CANCELLED
              (some order.status) now
              = (true,
                { st with
                  orders := (Table.modify st.orders
                    (order.customer_id, order.order_ts ++ "#" ++ order.order_id)
                    (fun rec => { rec with status := OrderStatus.CANCELLED
                                           updated_at := now }))
                  ordersById := (Table.modify st.ordersById oid
                    (fun rec => { rec with status := OrderStatus.CANCELLED
                                           updated_at := now })) }) := by
            simp [updateOrderStatus, hp, heq]
          rw [hupd]
          refine ⟨rfl, rfl, ?_, ?_⟩
          · exact Table.get_modify_self _ _ _ p hp
          · exact Table.get_modify_self _ _ _ order hsome
        · intro hne
          have hupd : updateOrderStatus st order.customer_id
              (order.order_ts ++ "#" ++ order.order_id) oid OrderStatus.CANCELLED
              (some order.status) now = (false, st) := by
            simp [updateOrderStatus, hp, fun h => hne h]
          simp [cancelOrderHandler, hsome, hc, hupd]
      · intro hpnone
        have hupd : updateOrderStatus st order.customer_id
            (order.order_ts ++ "#" ++ order.order_id) oid OrderStatus.CANCELLED
            (some order.status) now = (false, st) := by
          simp [updateOrderStatus, hpnone]
        simp [cancelOrderHandler, hsome, hc, hupd]

/-- Witness for C4: cancelling the sample PENDING order returns 200 and
both projections become CANCELLED; its conjuncts also exercise the 404
branch on an unknown id. -/
theorem cancelOrder_spec_witness :
    (cancelOrderHandler (sampleDB OrderStatus.PENDING) (some "ORD-1")
      "2024-01-02T00:00:00Z").statusCode = 200 ∧
    (cancelOrderHandler (sampleDB OrderStatus.PENDING) (some "ORD-1")
      "2024-01-02T00:00:00Z").status = some OrderStatus.CANCELLED ∧
    Table.get (cancelOrderHandler (sampleDB OrderStatus.PENDING) (some "ORD-1")
        "2024-01-02T00:00:00Z").db.orders ("CUST-1", "2024-01-01T00:00:00Z#ORD-1")
      = some { sampleOrder OrderStatus.PENDING with
          status := OrderStatus.CANCELLED, updated_at := "2024-01-02T00:00:00Z" } ∧
    cancelOrderHandler (sampleDB OrderStatus.PENDING) (some "ORD-404")
        "2024-01-02T00:00:00Z"
      = { statusCode := 404, order_id := some "ORD-404", current_status := none
          status := none, db := sampleDB OrderStatus.PENDING } := by
  have h := (((cancelOrder_spec (sampleDB OrderStatus.PENDING) "ORD-1"
    "2024-01-02T00:00:00Z").2 (toOrderById (sampleOrder OrderStatus.PENDING)) rfl).2
    (by decide)).1 (sampleOrder OrderStatus.PENDING) rfl
  have h200 := h.1 rfl
  have h404 := (cancelOrder_spec (sampleDB OrderStatus.PENDING) "ORD-404"
    "2024-01-02T00:00:00Z").1 rfl
  exact ⟨h200.1, h200.2.1, h200.2.2.1, h404⟩

/-! ## Claim C8: order totals -/

theorem calcSubtotal_eq_sum (items : List CreateOrderItem) :
    calcSubtotal items
      = (items.map (fun i => (i.quantity : ℚ) * i.unit_price)).sum := by
  suffices h : ∀ a : ℚ,
      items.foldl (fun sum item => sum + (item.quantity : ℚ) * item.unit_price) a
        = a + (items.map (fun i => (i.quantity : ℚ) * i.unit_price)).sum by
    simpa [calcSubtotal] using h 0
  induction items with
  | nil => intro a; simp
  | cons hd tl ih =>
      intro a
      simp [List.foldl_cons, ih, add_assoc]

/-- The create request of the spec's totals scenario:
2 x 25.00 WINE-001 and 6 x 8.00 BEER-001. -/
def scenarioRequest : CreateOrderRequest :=
  { customer_id := "CUST-1"
    store_id := "STORE-1"
    county_id := "COUNTY-1"
    items := [{ sku := "WINE-001", name := "Red Wine", quantity := 2, unit_price := 25 },
              { sku := "BEER-001", name := "Lager", quantity := 6, unit_price := 8 }]
    shipping_address := sampleAddress }

/-- Claim C8: every built order satisfies subtotal = sum of
quantity * unitPrice over the items, tax = subtotal * 0.08 and
total = subtotal + tax (exactly, hence within the 1e-2 tolerance); and
on the scenario items (2 x 25.00, 6 x 8.00) the stored totals are
subtotal 98.00, tax 7.84 and total 105.84. -/
theorem buildOrder_totals (req : CreateOrderRequest)
    (idempotencyKey orderId orderTs : String) :
    (buildOrder req idempotencyKey orderId orderTs).subtotal
      = (req.items.map (fun i => (i.quantity : ℚ) * i.unit_price)).sum ∧
    (buildOrder req idempotencyKey orderId orderTs).tax
      = (buildOrder req idempotencyKey orderId orderTs).subtotal * (8 / 100) ∧
    (buildOrder req idempotencyKey orderId orderTs).total
      = (buildOrder req idempotencyKey orderId orderTs).subtotal
        + (buildOrder req idempotencyKey orderId orderTs).tax ∧
    (buildOrder scenarioRequest idempotencyKey orderId orderTs).subtotal = 98 ∧
    (buildOrder scenarioRequest idempotencyKey orderId orderTs).tax = 784 / 100 ∧
    (buildOrder scenarioRequest idempotencyKey orderId orderTs).total = 10584 / 100 := by
  have hsub : (buildOrder scenarioRequest idempotencyKey orderId orderTs).subtotal = 98 := by
    norm_num [buildOrder, calcSubtotal, scenarioRequest]
  refine ⟨?_, rfl, rfl, hsub, ?_, ?_⟩
  · simp [buildOrder, calcSubtotal_eq_sum]
  · show (buildOrder scenarioRequest idempotencyKey orderId orderTs).subtotal * (8 / 100)
      = 784 / 100
    rw [hsub]; norm_num
  · show (buildOrder scenarioRequest idempotencyKey orderId orderTs).subtotal
        + (buildOrder scenarioRequest idempotencyKey orderId orderTs).subtotal * (8 / 100)
      = 10584 / 100
    rw [hsub]; norm_num

/-! ## Claims C1 and C7: creation paths of the repository -/

theorem createOrder_fresh_ok (st : DB) (o : Order)
    (hfresh : Table.get st.orders (o.customer_id, o.order_ts_id) = none) :
    createOrder st o false
      = (Except.ok (true, o),
         { st with orders := Table.put st.orders (o.customer_id, o.order_ts_id) o
                   ordersById := Table.put st.ordersById o.order_id (toOrderById o) }) := by
  simp [createOrder, hfresh]

theorem createOrder_fresh_err (st : DB) (o : Order)
    (hfresh : Table.get st.orders (o.customer_id, o.order_ts_id) = none) :
    createOrder st o true
      = (Except.error "OrderById put failed",
         { st with orders := Table.put st.orders (o.customer_id, o.order_ts_id) o }) := by
  simp [createOrder, hfresh]

theorem createOrder_dup (st : DB) (o existing : Order) (b : Bool)
    (hex : Table.get st.orders (o.customer_id, o.order_ts_id) = some existing) :
    createOrder st o b = (Except.ok (false, existing), st) := by
  simp [createOrder, hex]

/-- Response body assembled by the create handler for a returned order
and an optional duplicate message. -/
def respBodyOf (o : Order) (message : Option String) : CreateOrderRespBody :=
  { order_id := o.order_id, customer_id := o.customer_id, status := o.status
    payment_state := o.payment_state, items := o.items, subtotal := o.subtotal
    tax := o.tax, total := o.total, created_at := o.created_at, message := message }

/-- Claim C1: for a valid create request and a fresh derived key, the
first handler call returns 201 and stores exactly one primary record at
that key; a second call with the same idempotency-derived key collides
on that key, stores nothing new (the tables after it equal the tables
after the first call), returns 200 with the duplicate message, enqueues
nothing, and its body is the first call's data with the message set. -/
theorem createOrderHandler_idempotent (st : DB) (req : CreateOrderRequest)
    (idempotencyKey orderId orderTs : String)
    (hfresh : Table.get st.orders (req.customer_id, orderTs ++ "#" ++ orderId) = none) :
    (createOrderHandler st req idempotencyKey orderId orderTs false).statusCode = 201 ∧
    (createOrderHandler st req idempotencyKey orderId orderTs false).body
      = some (respBodyOf (buildOrder req idempotencyKey orderId orderTs) none) ∧
    Table.get (createOrderHandler st req idempotencyKey orderId orderTs false).db.orders
        (req.customer_id, orderTs ++ "#" ++ orderId)
      = some (buildOrder req idempotencyKey orderId orderTs) ∧
    ((createOrderHandler st req idempotencyKey orderId orderTs false).db.orders.filter
      (fun e => e.1 = (req.customer_id, orderTs ++ "#" ++ orderId))).length = 1 ∧
    (createOrderHandler
        (createOrderHandler st req idempotencyKey orderId orderTs false).db
        req idempotencyKey orderId orderTs false).statusCode = 200 ∧
    (createOrderHandler
        (createOrderHandler st req idempotencyKey orderId orderTs false).db
        req idempotencyKey orderId orderTs false).body
      = some (respBodyOf (buildOrder req idempotencyKey orderId orderTs)
          (some "Order already exists (idempotent)")) ∧
    (createOrderHandler
        (createOrderHandler st req idempotencyKey orderId orderTs false).db
        req idempotencyKey orderId orderTs false).db
      = (createOrderHandler st req idempotencyKey orderId orderTs false).db ∧
    (createOrderHandler
        (createOrderHandler st req idempotencyKey orderId orderTs false).db
        req idempotencyKey orderId orderTs false).enqueued = [] := by
  have hf : Table.get st.orders
      ((buildOrder req idempotencyKey orderId orderTs).customer_id,
       (buildOrder req idempotencyKey orderId orderTs).order_ts_id) = none := hfresh
  have h1 := createOrder_fresh_ok st (buildOrder req idempotencyKey orderId orderTs) hf
  have hr1 : createOrderHandler st req idempotencyKey orderId orderTs false
      = { statusCode := 201
          body := some (respBodyOf (buildOrder req idempotencyKey orderId orderTs) none)
          db := { st with
            orders := (Table.put st.orders
              ((buildOrder req idempotencyKey orderId orderTs).customer_id,
               (buildOrder req idempotencyKey orderId orderTs).order_ts_id)
              (buildOrder req idempotencyKey orderId orderTs))
            ordersById := (Table.put st.ordersById
              (buildOrder req idempotencyKey orderId orderTs).order_id
              (toOrderById (buildOrder req idempotencyKey orderId orderTs))) }
          enqueued := [{ order_id := orderId, customer_id := req.customer_id
                         order_ts_id := orderTs ++ "#" ++ orderId, timestamp := orderTs }] } := by
    simp [createOrderHandler, h1, respBodyOf]
  have hget1 : Table.get
      (createOrderHandler st req idempotencyKey orderId orderTs false).db.orders
      (req.customer_id, orderTs ++ "#" ++ orderId)
      = some (buildOrder req idempotencyKey orderId orderTs) := by
    rw [hr1]
    exact Table.get_put_self st.orders _ _
  have hr2gen : ∀ dbX : DB,
      Table.get dbX.orders
        ((buildOrder req idempotencyKey orderId orderTs).customer_id,
         (buildOrder req idempotencyKey orderId orderTs).order_ts_id)
        = some (buildOrder req idempotencyKey orderId orderTs) →
      createOrderHandler dbX req idempotencyKey orderId orderTs false
        = { statusCode := 200
            body := some (respBodyOf (buildOrder req idempotencyKey orderId orderTs)
              (some "Order already exists (idempotent)"))
            db := dbX
            enqueued := [] } := by
    intro dbX hx
    have h2 := createOrder_dup dbX (buildOrder req idempotencyKey orderId orderTs)
      (buildOrder req idempotencyKey orderId orderTs) false hx
    simp [createOrderHandler, h2, respBodyOf]
  have hr2 := hr2gen (createOrderHandler st req idempotencyKey orderId orderTs false).db hget1
  have hcount : ((createOrderHandler st req idempotencyKey orderId orderTs false).db.orders.filter
      (fun e => e.1 = (req.customer_id, orderTs ++ "#" ++ orderId))).length = 1 := by
    rw [hr1]
    show ((Table.put st.orders (req.customer_id, orderTs ++ "#" ++ orderId)
      (buildOrder req idempotencyKey orderId orderTs)).filter
      (fun e => e.1 = (req.customer_id, orderTs ++ "#" ++ orderId))).length = 1
    rw [Table.put_fresh_eq_append st.orders _ _ hfresh, List.filter_append,
      Table.filter_eq_nil_of_get_none st.orders _ hfresh]
    simp
  refine ⟨by rw [hr1], by rw [hr1], hget1, hcount, by rw [hr2], by rw [hr2],
    by rw [hr2], by rw [hr2]⟩

def emptyDB : DB := { orders := [], ordersById := [], inventory := [] }

/-- Witness for C1: running the scenario request twice against an empty
store yields 201 then 200 with the duplicate message. -/
theorem createOrderHandler_idempotent_witness :
    (createOrderHandler emptyDB scenarioRequest "idem-key-001" "ORD-1"
      "2024-01-01T00:00:00Z" false).statusCode = 201 ∧
    (createOrderHandler
        (createOrderHandler emptyDB scenarioRequest "idem-key-001" "ORD-1"
          "2024-01-01T00:00:00Z" false).db
        scenarioRequest "idem-key-001" "ORD-1"
        "2024-01-01T00:00:00Z" false).statusCode = 200 ∧
    (createOrderHandler
        (createOrderHandler emptyDB scenarioRequest "idem-key-001" "ORD-1"
          "2024-01-01T00:00:00Z" false).db
        scenarioRequest "idem-key-001" "ORD-1"
        "2024-01-01T00:00:00Z" false).body
      = some (respBodyOf (buildOrder scenarioRequest "idem-key-001" "ORD-1"
          "2024-01-01T00:00:00Z") (some "Order already exists (idempotent)")) := by
  have h := createOrderHandler_idempotent emptyDB scenarioRequest "idem-key-001" "ORD-1"
    "2024-01-01T00:00:00Z" rfl
  exact ⟨h.1, h.2.2.2.2.1, h.2.2.2.2.2.1⟩

/-- Counterexample for C7: with a fresh key and a failing projection
write, the create is not treated as successful: the handler returns 500
with no order body, not 201 or 200. -/
theorem createOrder_projection_failure_cx :
    (createOrderHandler emptyDB scenarioRequest "idem-key-001" "ORD-1"
      "2024-01-01T00:00:00Z" true).statusCode = 500 ∧
    ¬ ((createOrderHandler emptyDB scenarioRequest "idem-key-001" "ORD-1"
        "2024-01-01T00:00:00Z" true).statusCode = 201 ∨
       (createOrderHandler emptyDB scenarioRequest "idem-key-001" "ORD-1"
        "2024-01-01T00:00:00Z" true).statusCode = 200) ∧
    (createOrderHandler emptyDB scenarioRequest "idem-key-001" "ORD-1"
      "2024-01-01T00:00:00Z" true).body = none := by
  have h500 : (createOrderHandler emptyDB scenarioRequest "idem-key-001" "ORD-1"
      "2024-01-01T00:00:00Z" true).statusCode = 500 := rfl
  exact ⟨h500, by rw [h500]; simp, rfl⟩

/-- Claim C7 (amended): when the guarded write of the primary record
succeeds but the write of the by-id projection fails, the primary
record remains stored and the projection is untouched, but the failure
does propagate: createOrder re-throws it, the handler answers 500
without an order body, and no work item is enqueued. -/
theorem createOrder_projection_failure_amended (st : DB) (req : CreateOrderRequest)
    (idempotencyKey orderId orderTs : String)
    (hfresh : Table.get st.orders (req.customer_id, orderTs ++ "#" ++ orderId) = none) :
    (createOrderHandler st req idempotencyKey orderId orderTs true).statusCode = 500 ∧
    (createOrderHandler st req idempotencyKey orderId orderTs true).body = none ∧
    Table.get (createOrderHandler st req idempotencyKey orderId orderTs true).db.orders
        (req.customer_id, orderTs ++ "#" ++ orderId)
      = some (buildOrder req idempotencyKey orderId orderTs) ∧
    (createOrderHandler st req idempotencyKey orderId orderTs true).db.ordersById
      = st.ordersById ∧
    (createOrderHandler st req idempotencyKey orderId orderTs true).enqueued = [] := by
  have hf : Table.get st.orders
      ((buildOrder req idempotencyKey orderId orderTs).customer_id,
       (buildOrder req idempotencyKey orderId orderTs).order_ts_id) = none := hfresh
  have h1 := createOrder_fresh_err st (buildOrder req idempotencyKey orderId orderTs) hf
  have hr : createOrderHandler st req idempotencyKey orderId orderTs true
      = { statusCode := 500
          body := none
          db := { st with
            orders := (Table.put st.orders
              ((buildOrder req idempotencyKey orderId orderTs).customer_id,
               (buildOrder req idempotencyKey orderId orderTs).order_ts_id)
              (buildOrder req idempotencyKey orderId orderTs)) }
          enqueued := [] } := by
    simp [createOrderHandler, h1]
  refine ⟨by rw [hr], by rw [hr], ?_, by rw [hr], by rw [hr]⟩
  rw [hr]
  exact Table.get_put_self st.orders _ _

/-- Witness for the amended C7: against an empty store the failing
projection write yields 500 while the primary record is stored. -/
theorem createOrder_projection_failure_amended_witness :
    (createOrderHandler emptyDB scenarioRequest "idem-key-001" "ORD-1"
      "2024-01-01T00:00:00Z" true).statusCode = 500 ∧
    Table.get (createOrderHandler emptyDB scenarioRequest "idem-key-001" "ORD-1"
        "2024-01-01T00:00:00Z" true).db.orders
        ("CUST-1", "2024-01-01T00:00:00Z" ++ "#" ++ "ORD-1")
      = some (buildOrder scenarioRequest "idem-key-001" "ORD-1"
          "2024-01-01T00:00:00Z") ∧
    (createOrderHandler emptyDB scenarioRequest "idem-key-001" "ORD-1"
      "2024-01-01T00:00:00Z" true).enqueued = [] := by
  have h := createOrder_projection_failure_amended emptyDB scenarioRequest "idem-key-001"
    "ORD-1" "2024-01-01T00:00:00Z" rfl
  exact ⟨h.1, h.2.2.1, h.2.2.2.2⟩

end AcmeLiquors
